import Mathlib

/-!
Shallow embedding of the simplecom order/payment core.

Source files embedded here:
* `internal/models/order.go` — the `Order` entity and its state machine
  (`NewOrder`, `validateOrderInput`, `Authorize`, `Fail`, `Cancel`).
* `internal/services/order_service.go` — `OrderServiceImpl`
  (`CreateOrder`, `GetOrderByReference`, `UpdateOrderStatus`).
* the payment service (`PaymentServiceImpl.CreatePaymentSession`,
  `PaymentServiceImpl.VerifyPayment`, `mapResultCodeToStatus`,
  `calculateAmountExcludingTax`, `calculateTaxAmount`).
* `internal/repository/order_repo.go` — modelled as an in-memory store
  (`inMemoryRepo`) implementing the `OrderRepository` interface.

Modelling conventions:
* Go errors become the inductive `GoErr`; `fmt.Errorf("...: %w", err)`
  becomes `GoErr.wrap err "..."` and `errors.Is` becomes `errorsIs`.
* Go time (`time.Now()`) is an explicit `now : Nat` parameter; the Unix
  second used for the order reference is an explicit `unixTime : Nat`
  parameter; the generated UUID is an explicit `uuid : String` parameter.
* Receiver-mutating methods `(o *Order) M(...) error` become functions
  `Order → ... → Order × Option GoErr` returning the post-state of the
  receiver and the returned error (on error the receiver is returned
  unchanged exactly when the Go method returns before mutating).
* `int64` arithmetic in the tax helpers wraps via `wrap64`; Go's `/` on
  integers truncates toward zero, which is `Int.tdiv`.
* Go's `len` on strings counts bytes, which is `String.utf8ByteSize`.
* The Go type `OrderStatus` is a string type, so `OrderStatus` is
  `String` here and the status constants are the corresponding strings.
-/

/-- Go errors: the sentinel errors declared in `order.go`, `errors.New`
values (`base`), and `fmt.Errorf("...: %w", ...)` wrapping (`wrap`). -/
inductive GoErr where
  | errInvalidAmount
  | errInvalidCurrency
  | errInvalidProductName
  | errInvalidStatusTransition
  | errOrderAlreadyAuthorized
  | errOrderAlreadyFailed
  | errOrderAlreadyCancelled
  | base (msg : String)
  | wrap (inner : GoErr) (msg : String)
deriving Repr, DecidableEq

/-- Go `errors.Is`: walks the `%w` wrapping chain. -/
def errorsIs (e target : GoErr) : Bool :=
  match e with
  | .wrap inner msg => decide (GoErr.wrap inner msg = target) || errorsIs inner target
  | e2 => decide (e2 = target)

/-- Go `type OrderStatus string`. -/
abbrev OrderStatus := String

def OrderStatusPending : OrderStatus := "pending"

def OrderStatusAuthorized : OrderStatus := "authorized"

def OrderStatusFailed : OrderStatus := "failed"

def OrderStatusCancelled : OrderStatus := "cancelled"

/-- The status is one of the four declared constants. -/
def validStatus (s : OrderStatus) : Prop :=
  s = OrderStatusPending ∨ s = OrderStatusAuthorized ∨
    s = OrderStatusFailed ∨ s = OrderStatusCancelled

instance (s : OrderStatus) : Decidable (validStatus s) := by
  unfold validStatus; infer_instance

/-- `models.Order` (timestamps are abstract `Nat` ticks). -/
structure Order where
  id : String
  reference : String
  amount : Int
  currency : String
  status : OrderStatus
  productName : String
  pspReference : String
  createdAt : Nat
  updatedAt : Nat
deriving Repr, DecidableEq

/-- `validateOrderInput` from `order.go` (Go `len` = UTF-8 byte count). -/
def validateOrderInput (productName : String) (amount : Int) (currency : String) :
    Option GoErr :=
  if amount ≤ 0 then some .errInvalidAmount
  else if currency.utf8ByteSize ≠ 3 then some .errInvalidCurrency
  else if productName = "" then some .errInvalidProductName
  else none

/-- `models.NewOrder`. The generated UUID and the Unix second used for the
reference (`fmt.Sprintf("ORDER-%d", time.Now().Unix())`) are explicit
parameters, as is the creation time `now`. -/
def NewOrder (productName : String) (amount : Int) (currency : String)
    (uuid : String) (unixTime : Nat) (now : Nat) : Except GoErr Order :=
  match validateOrderInput productName amount currency with
  | some err => .error err
  | none =>
    .ok { id := uuid
          reference := "ORDER-" ++ toString unixTime
          amount := amount
          currency := currency
          status := OrderStatusPending
          productName := productName
          pspReference := ""
          createdAt := now
          updatedAt := now }

/-- `(o *Order) Authorize(pspReference string) error`. -/
def Order.Authorize (o : Order) (pspReference : String) (now : Nat) :
    Order × Option GoErr :=
  if o.status ≠ OrderStatusPending then
    (o, some (.wrap .errInvalidStatusTransition
      ("cannot authorize order with status " ++ o.status)))
  else if pspReference = "" then
    (o, some (.base "PSP reference cannot be empty"))
  else
    ({ o with status := OrderStatusAuthorized
              pspReference := pspReference
              updatedAt := now }, none)

/-- `(o *Order) Fail() error`. -/
def Order.Fail (o : Order) (now : Nat) : Order × Option GoErr :=
  if o.status = OrderStatusAuthorized then
    (o, some (.wrap .errInvalidStatusTransition "cannot fail an authorized order"))
  else if o.status = OrderStatusCancelled then
    (o, some (.wrap .errInvalidStatusTransition "cannot fail a cancelled order"))
  else
    ({ o with status := OrderStatusFailed, updatedAt := now }, none)

/-- `(o *Order) Cancel() error`. -/
def Order.Cancel (o : Order) (now : Nat) : Order × Option GoErr :=
  if o.status = OrderStatusAuthorized then
    (o, some (.wrap .errInvalidStatusTransition "cannot cancel an authorized order"))
  else
    ({ o with status := OrderStatusCancelled, updatedAt := now }, none)

/-- One call to a transition method of the state machine. -/
inductive OrderOp where
  | authorize (pspReference : String)
  | fail
  | cancel
deriving Repr, DecidableEq

/-- Dispatch one transition-method call. -/
def applyOp (o : Order) (op : OrderOp) (now : Nat) : Order × Option GoErr :=
  match op with
  | .authorize psp => o.Authorize psp now
  | .fail => o.Fail now
  | .cancel => o.Cancel now

/-- Run a sequence of transition-method calls against the (mutable in Go)
order; a call that returns an error leaves the order as it was. -/
def runOps (o : Order) : List (OrderOp × Nat) → Order
  | [] => o
  | (op, now) :: rest => runOps (applyOp o op now).1 rest

/-- Two-complement wraparound of Go `int64` arithmetic. -/
def wrap64 (x : Int) : Int := (x + 2 ^ 63) % 2 ^ 64 - 2 ^ 63

/-- `calculateAmountExcludingTax` (Go `int64` multiply, add and truncated
division, with wraparound). -/
def calculateAmountExcludingTax (amountIncludingTax taxPercentage : Int) : Int :=
  wrap64 (Int.tdiv (wrap64 (amountIncludingTax * 10000))
    (wrap64 (10000 + taxPercentage)))

/-- `calculateTaxAmount`. -/
def calculateTaxAmount (amountIncludingTax taxPercentage : Int) : Int :=
  let excludingTax := calculateAmountExcludingTax amountIncludingTax taxPercentage
  wrap64 (amountIncludingTax - excludingTax)

/-- `mapResultCodeToStatus` (the Go `switch` as an if-chain). -/
def mapResultCodeToStatus (resultCode : String) : OrderStatus :=
  if resultCode = "Authorised" then OrderStatusAuthorized
  else if resultCode = "Refused" ∨ resultCode = "Error" then OrderStatusFailed
  else if resultCode = "Cancelled" then OrderStatusCancelled
  else OrderStatusPending

/-- `config.AdyenConfig`. -/
structure AdyenConfig where
  apiKey : String
  clientKey : String
  merchantAccount : String
  environment : String
deriving Repr, DecidableEq

/-- `services.Amount`. -/
structure Amount where
  currency : String
  value : Int
deriving Repr, DecidableEq

/-- `services.LineItem`. -/
structure LineItem where
  quantity : Int
  amountExcludingTax : Int
  taxPercentage : Int
  description : String
  id : String
  taxAmount : Int
  amountIncludingTax : Int
deriving Repr, DecidableEq

/-- `services.SessionRequest` (the unused `metadata` field is omitted). -/
structure SessionRequest where
  merchantAccount : String
  amount : Amount
  reference : String
  returnUrl : String
  countryCode : String
  shopperLocale : String
  channel : String
  allowedPaymentMethods : List String
  lineItems : List LineItem
deriving Repr, DecidableEq

/-- `services.SessionResponse`. -/
structure SessionResponse where
  sessionData : String
  id : String
  expiresAt : String
deriving Repr, DecidableEq

/-- One element of `SessionStatusResponse.Payments`. -/
structure SessionStatusPayment where
  resultCode : String
  pspReference : String
deriving Repr, DecidableEq

/-- `services.SessionStatusResponse`. -/
structure SessionStatusResponse where
  id : String
  status : String
  reference : String
  payments : List SessionStatusPayment
deriving Repr, DecidableEq

/-- The `AdyenClient` interface: any implementation, given as the responses
it produces for each call. -/
structure AdyenClient where
  createSession : SessionRequest → Except GoErr SessionResponse
  getSessionStatus : String → String → Except GoErr SessionStatusResponse

/-- The `OrderRepository` interface over a store state `σ`: a state-passing
rendition of `CreateOrder`, `GetOrderByReference`, `UpdateOrderStatus`
(an error leaves the state as it was). -/
structure OrderStore (σ : Type) where
  createOrder : σ → Order → Except GoErr σ
  getOrderByReference : σ → String → Except GoErr Order
  updateOrderStatus : σ → String → String → String → Nat → Except GoErr σ

/-- Row lookup of `repository.OrderRepository` queries: the `orders` table
is keyed by the unique `reference` column. -/
def findByReference (rows : List Order) (reference : String) : Option Order :=
  rows.find? (fun o => o.reference = reference)

/-- `repository.OrderRepository` over an in-memory list of rows, with the
semantics of the SQL in `order_repo.go`: insert fails on a duplicate
`reference` (UNIQUE constraint), lookup by `reference` reports
`order not found` on no rows, and the status update writes
`status`, `psp_reference` and `updated_at` of the matching row and
reports `order not found` when no row is affected. -/
def inMemoryRepo : OrderStore (List Order) where
  createOrder rows order :=
    if (findByReference rows order.reference).isSome then
      .error (.wrap (.base "duplicate key value violates unique constraint")
        "failed to create order")
    else
      .ok (rows ++ [order])
  getOrderByReference rows reference :=
    match findByReference rows reference with
    | none => .error (.base "order not found")
    | some o => .ok o
  updateOrderStatus rows reference status pspReference now :=
    if (findByReference rows reference).isNone then
      .error (.base "order not found")
    else
      .ok (rows.map fun o =>
        if o.reference = reference then
          { o with status := status, pspReference := pspReference, updatedAt := now }
        else o)

/-- `OrderServiceImpl.CreateOrder` (the repository sets the same creation
timestamps that `NewOrder` already carries, so the store receives the
order as built). -/
def OrderServiceImpl.CreateOrder {σ : Type} (st : OrderStore σ) (s : σ)
    (productName : String) (amount : Int) (currency : String)
    (uuid : String) (unixTime now : Nat) : Except GoErr (Order × σ) :=
  match NewOrder productName amount currency uuid unixTime now with
  | .error e => .error (.wrap e "invalid order")
  | .ok order =>
    match st.createOrder s order with
    | .error e => .error (.wrap e "failed to create order")
    | .ok s1 => .ok (order, s1)

/-- `OrderServiceImpl.GetOrderByReference`. -/
def OrderServiceImpl.GetOrderByReference {σ : Type} (st : OrderStore σ) (s : σ)
    (reference : String) : Except GoErr Order :=
  match st.getOrderByReference s reference with
  | .error e => .error (.wrap e "failed to get order")
  | .ok order => .ok order

/-- `OrderServiceImpl.UpdateOrderStatus`: fetch, dispatch on the status
string through the domain transition methods, persist. -/
def OrderServiceImpl.UpdateOrderStatus {σ : Type} (st : OrderStore σ) (s : σ)
    (reference status pspReference : String) (now : Nat) : Except GoErr σ :=
  match st.getOrderByReference s reference with
  | .error e => .error (.wrap e "failed to get order")
  | .ok order =>
    let stepped : Order × Option GoErr :=
      if status = OrderStatusAuthorized then order.Authorize pspReference now
      else if status = OrderStatusFailed then order.Fail now
      else if status = OrderStatusCancelled then order.Cancel now
      else (order, some (.base ("invalid order status: " ++ status)))
    match stepped.2 with
    | some e => .error e
    | none =>
      match st.updateOrderStatus s reference stepped.1.status stepped.1.pspReference now with
      | .error e => .error (.wrap e "failed to update order status")
      | .ok s1 => .ok s1

/-- `services.PaymentSessionResult`. -/
structure PaymentSessionResult where
  sessionID : String
  sessionData : String
  clientKey : String
  orderRef : String
deriving Repr, DecidableEq

/-- `services.PaymentVerificationResult`. -/
structure PaymentVerificationResult where
  order : Order
  resultCode : String
  pspReference : String
  status : String
deriving Repr, DecidableEq

/-- `resultCode` extracted from the first payment attempt
(empty when there is none), as in `VerifyPayment`. -/
def SessionStatusResponse.extractResultCode (s : SessionStatusResponse) : String :=
  match s.payments with
  | [] => ""
  | p :: _ => p.resultCode

/-- `pspReference` extracted from the first payment attempt
(empty when there is none), as in `VerifyPayment`. -/
def SessionStatusResponse.extractPSPReference (s : SessionStatusResponse) : String :=
  match s.payments with
  | [] => ""
  | p :: _ => p.pspReference

/-- The `SessionRequest` literal built inside
`PaymentServiceImpl.CreatePaymentSession`. -/
def buildSessionRequest (cfg : AdyenConfig) (order : Order) (productName : String)
    (amount : Int) (currency returnURL : String) : SessionRequest :=
  { merchantAccount := cfg.merchantAccount
    amount := { currency := currency, value := amount }
    reference := order.reference
    returnUrl := returnURL
    countryCode := "US"
    shopperLocale := "en-US"
    channel := "Web"
    allowedPaymentMethods := ["scheme"]
    lineItems := [{ quantity := 1
                    amountExcludingTax := calculateAmountExcludingTax amount 1000
                    taxPercentage := 1000
                    description := productName
                    id := "widget-001"
                    taxAmount := calculateTaxAmount amount 1000
                    amountIncludingTax := amount }] }

/-- `PaymentServiceImpl.CreatePaymentSession`: create and persist the order,
then request a session from the gateway; a gateway failure is returned
after the order was already persisted. -/
def PaymentServiceImpl.CreatePaymentSession {σ : Type} (ac : AdyenClient)
    (st : OrderStore σ) (cfg : AdyenConfig) (s : σ)
    (productName : String) (amount : Int) (currency returnURL : String)
    (uuid : String) (unixTime now : Nat) : Except GoErr PaymentSessionResult × σ :=
  match OrderServiceImpl.CreateOrder st s productName amount currency uuid unixTime now with
  | .error e => (.error (.wrap e "failed to create order"), s)
  | .ok (order, s1) =>
    match ac.createSession (buildSessionRequest cfg order productName amount currency returnURL) with
    | .error e => (.error (.wrap e "failed to create Adyen session"), s1)
    | .ok resp =>
      (.ok { sessionID := resp.id
             sessionData := resp.sessionData
             clientKey := cfg.clientKey
             orderRef := order.reference }, s1)

/-- `PaymentServiceImpl.VerifyPayment`: look up the session outcome, map the
result code, fetch the order, attempt the status update (a failure there
is logged and swallowed), and return the in-memory result. -/
def PaymentServiceImpl.VerifyPayment {σ : Type} (ac : AdyenClient)
    (st : OrderStore σ) (s : σ) (sessionID sessionResult : String) (now : Nat) :
    Except GoErr PaymentVerificationResult × σ :=
  match ac.getSessionStatus sessionID sessionResult with
  | .error e => (.error (.wrap e "failed to get session status"), s)
  | .ok sessionStatus =>
    let resultCode := sessionStatus.extractResultCode
    let pspReference := sessionStatus.extractPSPReference
    let orderStatus := mapResultCodeToStatus resultCode
    match OrderServiceImpl.GetOrderByReference st s sessionStatus.reference with
    | .error e => (.error (.wrap e "failed to get order"), s)
    | .ok order =>
      let s1 :=
        match OrderServiceImpl.UpdateOrderStatus st s order.reference orderStatus pspReference now with
        | .error _ => s
        | .ok s2 => s2
      let order2 := { order with status := orderStatus, pspReference := pspReference }
      (.ok { order := order2
             resultCode := resultCode
             pspReference := pspReference
             status := orderStatus }, s1)

/-- Decimal digit characters of `n`, most significant first: a structurally
transparent spec of core `Nat.toDigitsCore`, used to reason about the
generated order reference string. -/
def digitsSpec (n : Nat) : List Char :=
  if n / 10 = 0 then [Nat.digitChar (n % 10)]
  else digitsSpec (n / 10) ++ [Nat.digitChar (n % 10)]
termination_by n
decreasing_by omega

/-- Reads a decimal digit string back to the number it denotes. -/
def digitsVal (l : List Char) : Nat :=
  l.foldl (fun acc c => acc * 10 + (c.toNat - Char.toNat '0')) 0

/-- A concrete pending order used by concrete-instance theorems. -/
def sampleOrder : Order :=
  { id := "id-1", reference := "ORDER-1", amount := 100, currency := "USD"
    status := OrderStatusPending, productName := "Widget", pspReference := ""
    createdAt := 0, updatedAt := 0 }

def sampleAuthorized : Order := { sampleOrder with status := OrderStatusAuthorized }

/-- Concrete collaborator fixtures used by concrete-instance theorems. -/
def sampleConfig : AdyenConfig :=
  { apiKey := "k", clientKey := "ck", merchantAccount := "m", environment := "TEST" }

def refusedResp : SessionStatusResponse :=
  { id := "sess-1", status := "completed", reference := "ORDER-1"
    payments := [{ resultCode := "Refused", pspReference := "PSP-9" }] }

def noAttemptResp : SessionStatusResponse :=
  { id := "sess-2", status := "active", reference := "ORDER-1", payments := [] }

def refusedClient : AdyenClient :=
  { createSession := fun _ => .error (.base "gateway down")
    getSessionStatus := fun _ _ => .ok refusedResp }

def noAttemptClient : AdyenClient :=
  { createSession := fun _ => .error (.base "gateway down")
    getSessionStatus := fun _ _ => .ok noAttemptResp }

def checkoutOrder : Order :=
  { id := "uuid-a", reference := "ORDER-1", amount := 100, currency := "USD"
    status := OrderStatusPending, productName := "Widget", pspReference := ""
    createdAt := 0, updatedAt := 0 }

/- ================= theorems ================= -/

theorem errorsIs_self (e : GoErr) : errorsIs e e = true := by
  cases e <;> simp [errorsIs]

theorem errorsIs_wrap_of (i : GoErr) (m : String) (t : GoErr)
    (h : errorsIs i t = true) : errorsIs (.wrap i m) t = true := by
  simp [errorsIs, h]

/-- C4: `mapResultCodeToStatus` is total on strings: it maps `Authorised` to
`authorized`, `Refused` and `Error` to `failed`, `Cancelled` to `cancelled`,
and every other string (including the empty string) to `pending`. -/
theorem mapResultCodeToStatus_total (s : String)
    (h : s ∉ (["Authorised", "Refused", "Error", "Cancelled"] : List String)) :
    mapResultCodeToStatus "Authorised" = OrderStatusAuthorized ∧
    mapResultCodeToStatus "Refused" = OrderStatusFailed ∧
    mapResultCodeToStatus "Error" = OrderStatusFailed ∧
    mapResultCodeToStatus "Cancelled" = OrderStatusCancelled ∧
    mapResultCodeToStatus "" = OrderStatusPending ∧
    mapResultCodeToStatus s = OrderStatusPending := by
  simp only [List.mem_cons, List.not_mem_nil, or_false, not_or] at h
  obtain ⟨h1, h2, h3, h4⟩ := h
  refine ⟨rfl, rfl, rfl, rfl, rfl, ?_⟩
  simp [mapResultCodeToStatus, h1, h2, h3, h4]

theorem mapResultCodeToStatus_total_witness :
    "Received" ∉ (["Authorised", "Refused", "Error", "Cancelled"] : List String) ∧
    mapResultCodeToStatus "Authorised" = OrderStatusAuthorized ∧
    mapResultCodeToStatus "Refused" = OrderStatusFailed ∧
    mapResultCodeToStatus "Error" = OrderStatusFailed ∧
    mapResultCodeToStatus "Cancelled" = OrderStatusCancelled ∧
    mapResultCodeToStatus "" = OrderStatusPending ∧
    mapResultCodeToStatus "Received" = OrderStatusPending :=
  ⟨by decide, mapResultCodeToStatus_total "Received" (by decide)⟩

theorem wrap64_id (x : Int) (h1 : -(2 ^ 63) ≤ x) (h2 : x < 2 ^ 63) : wrap64 x = x := by
  unfold wrap64
  rw [Int.emod_eq_of_lt (by omega) (by omega)]
  omega

/-- C7: for every non-negative tax-inclusive amount and non-negative tax rate
in basis points whose intermediate `int64` values do not overflow, the
tax-exclusive amount is `floor(amount * 10000 / (10000 + rateBps))` and the
tax amount is the difference; including the three concrete splits
`(100, 1000) = (90, 10)`, `(120, 2000) = (100, 20)`, `(100, 0) = (100, 0)`. -/
theorem tax_split_exact (amount rateBps : Int)
    (h0 : 0 ≤ amount) (h1 : 0 ≤ rateBps)
    (h2 : amount * 10000 < 2 ^ 63) (h3 : 10000 + rateBps < 2 ^ 63) :
    calculateAmountExcludingTax amount rateBps =
      Int.fdiv (amount * 10000) (10000 + rateBps) ∧
    calculateTaxAmount amount rateBps =
      amount - Int.fdiv (amount * 10000) (10000 + rateBps) ∧
    calculateAmountExcludingTax 100 1000 = 90 ∧ calculateTaxAmount 100 1000 = 10 ∧
    calculateAmountExcludingTax 120 2000 = 100 ∧ calculateTaxAmount 120 2000 = 20 ∧
    calculateAmountExcludingTax 100 0 = 100 ∧ calculateTaxAmount 100 0 = 0 := by
  have hnn : (0 : Int) ≤ amount * 10000 := by positivity
  have hnum : wrap64 (amount * 10000) = amount * 10000 := wrap64_id _ (by omega) h2
  have hden : wrap64 (10000 + rateBps) = 10000 + rateBps := wrap64_id _ (by omega) h3
  have hq : Int.tdiv (amount * 10000) (10000 + rateBps) =
      (amount * 10000) / (10000 + rateBps) := Int.tdiv_eq_ediv hnn (by omega)
  have hfd : Int.fdiv (amount * 10000) (10000 + rateBps) =
      (amount * 10000) / (10000 + rateBps) := by
    rw [Int.fdiv_eq_tdiv hnn (by omega), hq]
  have hq0 : (0 : Int) ≤ (amount * 10000) / (10000 + rateBps) :=
    Int.ediv_nonneg hnn (by omega)
  have hqle : (amount * 10000) / (10000 + rateBps) ≤ amount * 10000 :=
    Int.ediv_le_self _ hnn
  have hmain : calculateAmountExcludingTax amount rateBps =
      Int.fdiv (amount * 10000) (10000 + rateBps) := by
    unfold calculateAmountExcludingTax
    rw [hnum, hden, hq, hfd, wrap64_id _ (by omega) (by omega)]
  have hqa : (amount * 10000) / (10000 + rateBps) ≤ amount :=
    Int.ediv_le_of_le_mul (by omega) (by nlinarith)
  have hara : amount ≤ amount * 10000 := by nlinarith
  have htax : calculateTaxAmount amount rateBps =
      amount - Int.fdiv (amount * 10000) (10000 + rateBps) := by
    unfold calculateTaxAmount
    rw [hmain, hfd, wrap64_id _ (by omega) (by omega)]
  refine ⟨hmain, htax, ?_, ?_, ?_, ?_, ?_, ?_⟩ <;> decide

theorem tax_split_exact_witness :
    (0 : Int) ≤ 100 ∧ (0 : Int) ≤ 1000 ∧
    (100 : Int) * 10000 < 2 ^ 63 ∧ (10000 : Int) + 1000 < 2 ^ 63 ∧
    calculateAmountExcludingTax 100 1000 = Int.fdiv (100 * 10000) (10000 + 1000) ∧
    calculateTaxAmount 100 1000 = 100 - Int.fdiv (100 * 10000) (10000 + 1000) ∧
    calculateAmountExcludingTax 100 1000 = 90 ∧ calculateTaxAmount 100 1000 = 10 ∧
    calculateAmountExcludingTax 120 2000 = 100 ∧ calculateTaxAmount 120 2000 = 20 ∧
    calculateAmountExcludingTax 100 0 = 100 ∧ calculateTaxAmount 100 0 = 0 :=
  ⟨by decide, by decide, by decide, by decide,
    tax_split_exact 100 1000 (by decide) (by decide) (by decide) (by decide)⟩

theorem validStatus_applyOp (o : Order) (op : OrderOp) (now : Nat)
    (h : validStatus o.status) : validStatus (applyOp o op now).1.status := by
  cases op <;>
    simp only [applyOp, Order.Authorize, Order.Fail, Order.Cancel] <;>
    split_ifs <;>
    simp_all [validStatus, OrderStatusPending, OrderStatusAuthorized,
      OrderStatusFailed, OrderStatusCancelled]

theorem validStatus_runOps (o : Order) (ops : List (OrderOp × Nat))
    (h : validStatus o.status) : validStatus (runOps o ops).status := by
  induction ops generalizing o with
  | nil => exact h
  | cons p rest ih => exact ih _ (validStatus_applyOp o p.1 p.2 h)

theorem applyOp_success_not_pending (o : Order) (op : OrderOp) (now : Nat)
    (h : (applyOp o op now).2 = none) :
    (applyOp o op now).1.status ≠ OrderStatusPending := by
  cases op <;>
    simp only [applyOp, Order.Authorize, Order.Fail, Order.Cancel] at h ⊢ <;>
    split_ifs at h ⊢ <;>
    simp_all [OrderStatusPending, OrderStatusAuthorized,
      OrderStatusFailed, OrderStatusCancelled]

theorem applyOp_authorized_frozen (o : Order) (op : OrderOp) (now : Nat)
    (h : o.status = OrderStatusAuthorized) :
    (applyOp o op now).1 = o ∧ (applyOp o op now).2 ≠ none := by
  cases op <;>
    simp_all [applyOp, Order.Authorize, Order.Fail, Order.Cancel,
      OrderStatusPending, OrderStatusAuthorized]

theorem runOps_authorized_frozen (o : Order) (ops : List (OrderOp × Nat))
    (h : o.status = OrderStatusAuthorized) : runOps o ops = o := by
  induction ops generalizing o with
  | nil => rfl
  | cons p rest ih =>
    have hfr := applyOp_authorized_frozen o p.1 p.2 h
    simp only [runOps, hfr.1]
    exact ih o h

/-- C1: state-machine invariant. Starting from a `pending` order, any finite
sequence of `Authorize`/`Fail`/`Cancel` calls keeps the status in
`{pending, authorized, failed, cancelled}`; no transition method ever
concludes successfully with status `pending`; and once an order is
`authorized`, every further transition call errors and leaves the order
completely unchanged. -/
theorem order_state_machine_invariant (o oX : Order)
    (ops opsX : List (OrderOp × Nat)) (op : OrderOp) (now : Nat)
    (hp : o.status = OrderStatusPending) :
    validStatus (runOps o ops).status ∧
    ((applyOp oX op now).2 = none →
      (applyOp oX op now).1.status ≠ OrderStatusPending) ∧
    (oX.status = OrderStatusAuthorized →
      (applyOp oX op now).2 ≠ none ∧ runOps oX opsX = oX) := by
  refine ⟨validStatus_runOps o ops (Or.inl hp),
    applyOp_success_not_pending oX op now, fun ha => ?_⟩
  exact ⟨(applyOp_authorized_frozen oX op now ha).2,
    runOps_authorized_frozen oX opsX ha⟩

theorem order_state_machine_invariant_witness :
    sampleOrder.status = OrderStatusPending ∧
    validStatus (runOps sampleOrder [(.authorize "PSP-1", 1)]).status ∧
    ((applyOp sampleAuthorized .fail 2).2 = none →
      (applyOp sampleAuthorized .fail 2).1.status ≠ OrderStatusPending) ∧
    (sampleAuthorized.status = OrderStatusAuthorized →
      (applyOp sampleAuthorized .fail 2).2 ≠ none ∧
        runOps sampleAuthorized [(.cancel, 3)] = sampleAuthorized) :=
  ⟨rfl, order_state_machine_invariant sampleOrder sampleAuthorized
    [(.authorize "PSP-1", 1)] [(.cancel, 3)] .fail 2 rfl⟩

/-- C2: `Authorize` succeeds iff the status is `pending` and the PSP reference
is non-empty; on success it sets status `authorized`, stores the reference and
bumps `updatedAt`; a non-`pending` status yields an invalid-transition error
and an empty reference yields the empty-PSP-reference error, the order being
unchanged on any error; a second `Authorize` after a success fails with an
invalid-transition error. -/
theorem authorize_contract (o : Order) (psp psp2 : String) (now now2 : Nat) :
    ((o.Authorize psp now).2 = none ↔ o.status = OrderStatusPending ∧ psp ≠ "") ∧
    (o.status = OrderStatusPending → psp ≠ "" →
      o.Authorize psp now =
        ({ o with status := OrderStatusAuthorized
                  pspReference := psp
                  updatedAt := now }, none)) ∧
    (o.status ≠ OrderStatusPending →
      ∃ e, o.Authorize psp now = (o, some e) ∧
        errorsIs e .errInvalidStatusTransition = true) ∧
    (o.status = OrderStatusPending → psp = "" →
      o.Authorize psp now = (o, some (.base "PSP reference cannot be empty"))) ∧
    (∀ e, (o.Authorize psp now).2 = some e → (o.Authorize psp now).1 = o) ∧
    ((o.Authorize psp now).2 = none →
      ∃ e, (o.Authorize psp now).1.Authorize psp2 now2 =
          ((o.Authorize psp now).1, some e) ∧
        errorsIs e .errInvalidStatusTransition = true) := by
  by_cases hs : o.status = OrderStatusPending <;> by_cases hpe : psp = "" <;>
    simp_all [Order.Authorize, OrderStatusPending, OrderStatusAuthorized,
      errorsIs_wrap_of _ _ _ (errorsIs_self _)]

theorem authorize_contract_witness :
    ((sampleOrder.Authorize "PSP-1" 1).2 = none ↔
      sampleOrder.status = OrderStatusPending ∧ "PSP-1" ≠ "") ∧
    (sampleOrder.status = OrderStatusPending → "PSP-1" ≠ "" →
      sampleOrder.Authorize "PSP-1" 1 =
        ({ sampleOrder with status := OrderStatusAuthorized
                            pspReference := "PSP-1"
                            updatedAt := 1 }, none)) ∧
    (sampleOrder.status ≠ OrderStatusPending →
      ∃ e, sampleOrder.Authorize "PSP-1" 1 = (sampleOrder, some e) ∧
        errorsIs e .errInvalidStatusTransition = true) ∧
    (sampleOrder.status = OrderStatusPending → "PSP-1" = "" →
      sampleOrder.Authorize "PSP-1" 1 =
        (sampleOrder, some (.base "PSP reference cannot be empty"))) ∧
    (∀ e, (sampleOrder.Authorize "PSP-1" 1).2 = some e →
      (sampleOrder.Authorize "PSP-1" 1).1 = sampleOrder) ∧
    ((sampleOrder.Authorize "PSP-1" 1).2 = none →
      ∃ e, (sampleOrder.Authorize "PSP-1" 1).1.Authorize "PSP-2" 2 =
          ((sampleOrder.Authorize "PSP-1" 1).1, some e) ∧
        errorsIs e .errInvalidStatusTransition = true) :=
  authorize_contract sampleOrder "PSP-1" "PSP-2" 1 2

/-- C3: for orders whose status is one of the four declared ones, `Fail`
succeeds exactly from `pending` or `failed` (idempotently setting `failed`)
and errors with an invalid-transition error from `authorized` or `cancelled`;
`Cancel` succeeds exactly from `pending`, `failed` or `cancelled` (setting
`cancelled`) and errors with an invalid-transition error from `authorized`;
on any error the order is unchanged. -/
theorem fail_cancel_contract (o : Order) (now : Nat) (hv : validStatus o.status) :
    ((o.Fail now).2 = none ↔
      o.status = OrderStatusPending ∨ o.status = OrderStatusFailed) ∧
    (o.status = OrderStatusPending ∨ o.status = OrderStatusFailed →
      o.Fail now = ({ o with status := OrderStatusFailed, updatedAt := now }, none)) ∧
    (o.status = OrderStatusAuthorized ∨ o.status = OrderStatusCancelled →
      ∃ e, o.Fail now = (o, some e) ∧
        errorsIs e .errInvalidStatusTransition = true) ∧
    ((o.Cancel now).2 = none ↔
      o.status = OrderStatusPending ∨ o.status = OrderStatusFailed ∨
        o.status = OrderStatusCancelled) ∧
    (o.status = OrderStatusPending ∨ o.status = OrderStatusFailed ∨
        o.status = OrderStatusCancelled →
      o.Cancel now = ({ o with status := OrderStatusCancelled, updatedAt := now }, none)) ∧
    (o.status = OrderStatusAuthorized →
      ∃ e, o.Cancel now = (o, some e) ∧
        errorsIs e .errInvalidStatusTransition = true) ∧
    (∀ e, (o.Fail now).2 = some e → (o.Fail now).1 = o) ∧
    (∀ e, (o.Cancel now).2 = some e → (o.Cancel now).1 = o) := by
  rcases hv with h | h | h | h <;>
    simp_all [Order.Fail, Order.Cancel, OrderStatusPending, OrderStatusAuthorized,
      OrderStatusFailed, OrderStatusCancelled,
      errorsIs_wrap_of _ _ _ (errorsIs_self _)]

theorem fail_cancel_contract_witness :
    validStatus sampleOrder.status ∧
    ((sampleOrder.Fail 1).2 = none ↔
      sampleOrder.status = OrderStatusPending ∨ sampleOrder.status = OrderStatusFailed) ∧
    (sampleOrder.status = OrderStatusPending ∨ sampleOrder.status = OrderStatusFailed →
      sampleOrder.Fail 1 =
        ({ sampleOrder with status := OrderStatusFailed, updatedAt := 1 }, none)) ∧
    (sampleOrder.status = OrderStatusAuthorized ∨
        sampleOrder.status = OrderStatusCancelled →
      ∃ e, sampleOrder.Fail 1 = (sampleOrder, some e) ∧
        errorsIs e .errInvalidStatusTransition = true) ∧
    ((sampleOrder.Cancel 1).2 = none ↔
      sampleOrder.status = OrderStatusPending ∨ sampleOrder.status = OrderStatusFailed ∨
        sampleOrder.status = OrderStatusCancelled) ∧
    (sampleOrder.status = OrderStatusPending ∨ sampleOrder.status = OrderStatusFailed ∨
        sampleOrder.status = OrderStatusCancelled →
      sampleOrder.Cancel 1 =
        ({ sampleOrder with status := OrderStatusCancelled, updatedAt := 1 }, none)) ∧
    (sampleOrder.status = OrderStatusAuthorized →
      ∃ e, sampleOrder.Cancel 1 = (sampleOrder, some e) ∧
        errorsIs e .errInvalidStatusTransition = true) ∧
    (∀ e, (sampleOrder.Fail 1).2 = some e → (sampleOrder.Fail 1).1 = sampleOrder) ∧
    (∀ e, (sampleOrder.Cancel 1).2 = some e → (sampleOrder.Cancel 1).1 = sampleOrder) :=
  ⟨Or.inl rfl, fail_cancel_contract sampleOrder 1 (Or.inl rfl)⟩

theorem digitChar_val (d : Nat) (h : d < 10) :
    (Nat.digitChar d).toNat - Char.toNat '0' = d := by
  interval_cases d <;> decide

theorem digitsVal_append_singleton (l : List Char) (c : Char) :
    digitsVal (l ++ [c]) = digitsVal l * 10 + (c.toNat - Char.toNat '0') := by
  simp [digitsVal, List.foldl_append]

theorem digitsVal_digitsSpec (n : Nat) : digitsVal (digitsSpec n) = n := by
  induction n using digitsSpec.induct with
  | case1 n h =>
    rw [digitsSpec, if_pos h]
    have h10 : n % 10 = n := by omega
    rw [h10]
    simpa [digitsVal] using digitChar_val n (by omega)
  | case2 n h ih =>
    rw [digitsSpec, if_neg h, digitsVal_append_singleton, ih,
      digitChar_val (n % 10) (by omega)]
    omega

theorem digitsSpec_injective (m n : Nat) (h : digitsSpec m = digitsSpec n) : m = n := by
  have hm := digitsVal_digitsSpec m
  have hn := digitsVal_digitsSpec n
  rw [h] at hm
  omega

theorem toDigitsCore_eq_digitsSpec (f : Nat) :
    ∀ (n : Nat) (ds : List Char), 0 < f → n < 10 ^ f →
      Nat.toDigitsCore 10 f n ds = digitsSpec n ++ ds := by
  induction f with
  | zero => intro n ds hf _; omega
  | succ f ih =>
    intro n ds _ hn
    simp only [Nat.toDigitsCore]
    by_cases h : n / 10 = 0
    · rw [if_pos h, digitsSpec, if_pos h]
      rfl
    · rw [if_neg h]
      have hf2 : 0 < f := by
        by_contra hf0
        have : f = 0 := by omega
        subst this
        simp at hn
        omega
      have hlt : n / 10 < 10 ^ f := by
        have : n < 10 ^ f * 10 := by
          rw [← pow_succ]
          exact hn
        omega
      rw [digitsSpec, if_neg h, ih (n / 10) (Nat.digitChar (n % 10) :: ds) hf2 hlt]
      simp

theorem toDigits_eq_digitsSpec (n : Nat) : Nat.toDigits 10 n = digitsSpec n := by
  have hlt : n < 10 ^ (n + 1) := by
    calc n < 2 ^ n := Nat.lt_two_pow n
      _ ≤ 10 ^ n := Nat.pow_le_pow_left (by norm_num) n
      _ < 10 ^ (n + 1) := Nat.pow_lt_pow_succ (by norm_num)
  simpa using toDigitsCore_eq_digitsSpec (n + 1) n [] (Nat.succ_pos n) hlt

theorem natRepr_injective (m n : Nat) (h : Nat.repr m = Nat.repr n) : m = n := by
  apply digitsSpec_injective
  rw [← toDigits_eq_digitsSpec, ← toDigits_eq_digitsSpec]
  have h2 : (Nat.toDigits 10 m).asString = (Nat.toDigits 10 n).asString := h
  simpa [List.asString, String.ext_iff] using h2

theorem toString_nat_injective (m n : Nat) (h : toString m = toString n) : m = n :=
  natRepr_injective m n h

theorem order_reference_injective (m n : Nat)
    (h : "ORDER-" ++ toString m = "ORDER-" ++ toString n) : m = n := by
  apply toString_nat_injective
  have h2 := congrArg String.data h
  rw [String.data_append, String.data_append] at h2
  exact String.ext (List.append_cancel_left h2)

theorem order_reference_ne_empty (t : Nat) : "ORDER-" ++ toString t ≠ "" := by
  intro h
  have h2 := congrArg String.data h
  simp [String.data_append] at h2

/-- C9 counterexample: two `NewOrder` calls in the same Unix second (here
second 5) with distinct UUIDs and distinct inputs both succeed and produce
the *same* reference `ORDER-5`, so references are not unconditionally
distinct across repeated calls. -/
theorem new_order_reference_collision :
    (NewOrder "Widget" 100 "USD" "uuid-a" 5 0).toOption.map Order.reference =
      some "ORDER-5" ∧
    (NewOrder "Gadget" 250 "EUR" "uuid-b" 5 9).toOption.map Order.reference =
      some "ORDER-5" ∧
    "uuid-a" ≠ "uuid-b" := by
  refine ⟨rfl, rfl, by decide⟩

/-- C9 (amended): `NewOrder` succeeds iff `amount > 0`, the currency is 3
bytes long and the product name is non-empty; on success the status is
`pending`, the id is the generated UUID (non-empty when the generator yields
a non-empty UUID) and the reference is `ORDER-<unix second>`, which is never
empty; each invalid input yields its matching validation error and no order;
ids are distinct across calls whenever the generated UUIDs are distinct, and
references are distinct whenever the creation Unix seconds differ (calls
within the same second share a reference). -/
theorem new_order_contract (productName productName2 : String) (amount amount2 : Int)
    (currency currency2 uuid uuid2 : String) (t t2 now now2 : Nat) :
    ((∃ o, NewOrder productName amount currency uuid t now = .ok o) ↔
      amount > 0 ∧ currency.utf8ByteSize = 3 ∧ productName ≠ "") ∧
    (∀ o, NewOrder productName amount currency uuid t now = .ok o →
      o.status = OrderStatusPending ∧ o.id = uuid ∧
      o.reference = "ORDER-" ++ toString t ∧ o.reference ≠ "" ∧
      (uuid ≠ "" → o.id ≠ "")) ∧
    (amount ≤ 0 →
      NewOrder productName amount currency uuid t now = .error .errInvalidAmount) ∧
    (amount > 0 → currency.utf8ByteSize ≠ 3 →
      NewOrder productName amount currency uuid t now = .error .errInvalidCurrency) ∧
    (amount > 0 → currency.utf8ByteSize = 3 → productName = "" →
      NewOrder productName amount currency uuid t now = .error .errInvalidProductName) ∧
    (∀ o o2, NewOrder productName amount currency uuid t now = .ok o →
      NewOrder productName2 amount2 currency2 uuid2 t2 now2 = .ok o2 →
      (uuid ≠ uuid2 → o.id ≠ o2.id) ∧ (t ≠ t2 → o.reference ≠ o2.reference)) := by
  have hmk : ∀ (pn : String) (a : Int) (c u : String) (tt nn : Nat) (o : Order),
      NewOrder pn a c u tt nn = .ok o →
      o.id = u ∧ o.reference = "ORDER-" ++ toString tt ∧
        o.status = OrderStatusPending := by
    intro pn a c u tt nn o h
    unfold NewOrder at h
    rcases hv : validateOrderInput pn a c with _ | e
    · rw [hv] at h
      cases h
      exact ⟨rfl, rfl, rfl⟩
    · rw [hv] at h
      cases h
  refine ⟨?_, ?_, ?_, ?_, ?_, ?_⟩
  · constructor
    · rintro ⟨o, ho⟩
      unfold NewOrder validateOrderInput at ho
      split_ifs at ho <;> simp_all <;> omega
    · rintro ⟨h1, h2, h3⟩
      unfold NewOrder validateOrderInput
      split_ifs <;> first | exact ⟨_, rfl⟩ | omega | simp_all
  · intro o ho
    obtain ⟨hid, href, hst⟩ := hmk _ _ _ _ _ _ _ ho
    refine ⟨hst, hid, href, ?_, ?_⟩
    · rw [href]; exact order_reference_ne_empty t
    · intro hu; rw [hid]; exact hu
  · intro h
    unfold NewOrder validateOrderInput
    split_ifs <;> first | rfl | omega
  · intro h1 h2
    unfold NewOrder validateOrderInput
    split_ifs <;> first | rfl | omega
  · intro h1 h2 h3
    unfold NewOrder validateOrderInput
    split_ifs <;> first | rfl | omega | simp_all
  · intro o o2 ho ho2
    obtain ⟨hid, href, _⟩ := hmk _ _ _ _ _ _ _ ho
    obtain ⟨hid2, href2, _⟩ := hmk _ _ _ _ _ _ _ ho2
    constructor
    · intro hne heq
      rw [hid, hid2] at heq
      exact hne heq
    · intro hne heq
      rw [href, href2] at heq
      exact hne (order_reference_injective t t2 heq)

theorem new_order_contract_witness :
    ((∃ o, NewOrder "Widget" 100 "USD" "uuid-a" 5 0 = .ok o) ↔
      (100 : Int) > 0 ∧ "USD".utf8ByteSize = 3 ∧ "Widget" ≠ "") ∧
    (∀ o, NewOrder "Widget" 100 "USD" "uuid-a" 5 0 = .ok o →
      o.status = OrderStatusPending ∧ o.id = "uuid-a" ∧
      o.reference = "ORDER-" ++ toString 5 ∧ o.reference ≠ "" ∧
      ("uuid-a" ≠ "" → o.id ≠ "")) ∧
    ((100 : Int) ≤ 0 →
      NewOrder "Widget" 100 "USD" "uuid-a" 5 0 = .error .errInvalidAmount) ∧
    ((100 : Int) > 0 → "USD".utf8ByteSize ≠ 3 →
      NewOrder "Widget" 100 "USD" "uuid-a" 5 0 = .error .errInvalidCurrency) ∧
    ((100 : Int) > 0 → "USD".utf8ByteSize = 3 → "Widget" = "" →
      NewOrder "Widget" 100 "USD" "uuid-a" 5 0 = .error .errInvalidProductName) ∧
    (∀ o o2, NewOrder "Widget" 100 "USD" "uuid-a" 5 0 = .ok o →
      NewOrder "Gadget" 250 "EUR" "uuid-b" 7 9 = .ok o2 →
      ("uuid-a" ≠ "uuid-b" → o.id ≠ o2.id) ∧ (5 ≠ 7 → o.reference ≠ o2.reference)) :=
  new_order_contract "Widget" "Gadget" 100 250 "USD" "EUR" "uuid-a" "uuid-b" 5 7 0 9

theorem newOrder_ok_fields (pn : String) (a : Int) (c u : String) (tt nn : Nat)
    (o : Order) (h : NewOrder pn a c u tt nn = .ok o) :
    o.status = OrderStatusPending ∧ o.id = u ∧
      o.reference = "ORDER-" ++ toString tt := by
  unfold NewOrder at h
  rcases hv : validateOrderInput pn a c with _ | e <;> rw [hv] at h <;> cases h
  exact ⟨rfl, rfl, rfl⟩

theorem mapResultCodeToStatus_unrecognized (rc : String)
    (h : rc ∉ (["Authorised", "Refused", "Error", "Cancelled"] : List String)) :
    mapResultCodeToStatus rc = OrderStatusPending := by
  simp only [List.mem_cons, List.not_mem_nil, or_false, not_or] at h
  obtain ⟨h1, h2, h3, h4⟩ := h
  simp [mapResultCodeToStatus, h1, h2, h3, h4]

/-- C8: when `CreatePaymentSession` persists the order but the gateway call
fails, the caller gets the wrapped gateway error and the already-persisted
order is still in the store, `pending` and unchanged. -/
theorem checkout_dangling_pending (ac : AdyenClient) (cfg : AdyenConfig)
    (rows : List Order) (order : Order) (productName : String) (amount : Int)
    (currency returnURL uuid : String) (t now : Nat) (e : GoErr)
    (horder : NewOrder productName amount currency uuid t now = .ok order)
    (hnodup : findByReference rows order.reference = none)
    (hgw : ac.createSession
        (buildSessionRequest cfg order productName amount currency returnURL) =
      .error e) :
    PaymentServiceImpl.CreatePaymentSession ac inMemoryRepo cfg rows
        productName amount currency returnURL uuid t now =
      (.error (.wrap e "failed to create Adyen session"), rows ++ [order]) ∧
    findByReference (rows ++ [order]) order.reference = some order ∧
    order.status = OrderStatusPending := by
  obtain ⟨hst, -, -⟩ := newOrder_ok_fields _ _ _ _ _ _ _ horder
  refine ⟨?_, ?_, hst⟩
  · simp [PaymentServiceImpl.CreatePaymentSession, OrderServiceImpl.CreateOrder,
      horder, inMemoryRepo, hnodup, hgw]
  · unfold findByReference at hnodup ⊢
    rw [List.find?_append, hnodup]
    simp

/-- C5: reconciliation is best-effort on the status write: when the session
lookup and the order fetch succeed but the status update fails,
`VerifyPayment` still returns a non-error result whose order carries the
mapped status and extracted PSP reference in memory, with matching `status`
and `resultCode` fields, and the store state is left as it was. -/
theorem verify_best_effort {σ : Type} (ac : AdyenClient) (st : OrderStore σ) (s : σ)
    (sessionID sessionResult : String) (now : Nat)
    (resp : SessionStatusResponse) (order : Order) (e : GoErr)
    (hgw : ac.getSessionStatus sessionID sessionResult = .ok resp)
    (hget : st.getOrderByReference s resp.reference = .ok order)
    (hupd : OrderServiceImpl.UpdateOrderStatus st s order.reference
        (mapResultCodeToStatus resp.extractResultCode)
        resp.extractPSPReference now = .error e) :
    PaymentServiceImpl.VerifyPayment ac st s sessionID sessionResult now =
      (.ok { order := { order with
                        status := mapResultCodeToStatus resp.extractResultCode
                        pspReference := resp.extractPSPReference }
             resultCode := resp.extractResultCode
             pspReference := resp.extractPSPReference
             status := mapResultCodeToStatus resp.extractResultCode }, s) := by
  simp [PaymentServiceImpl.VerifyPayment, OrderServiceImpl.GetOrderByReference,
    hgw, hget, hupd]

theorem updateOrderStatus_pending_error {σ : Type} (st : OrderStore σ) (s : σ)
    (reference pspReference : String) (now : Nat) :
    ∃ e, OrderServiceImpl.UpdateOrderStatus st s reference OrderStatusPending
        pspReference now = .error e := by
  unfold OrderServiceImpl.UpdateOrderStatus
  rcases hv : st.getOrderByReference s reference with e | order
  · exact ⟨_, rfl⟩
  · simp [OrderStatusPending, OrderStatusAuthorized, OrderStatusFailed,
      OrderStatusCancelled]

/-- C6: an unrecognized result code (including the no-payment-attempt case,
which extracts empty strings rather than erroring) leaves the store state
completely unchanged and reports status `pending` back to the caller. -/
theorem verify_unrecognized_code_noop {σ : Type} (ac : AdyenClient)
    (st : OrderStore σ) (s : σ) (sessionID sessionResult : String) (now : Nat)
    (resp : SessionStatusResponse) (order : Order)
    (hgw : ac.getSessionStatus sessionID sessionResult = .ok resp)
    (hget : st.getOrderByReference s resp.reference = .ok order)
    (hrc : resp.extractResultCode ∉
      (["Authorised", "Refused", "Error", "Cancelled"] : List String)) :
    (PaymentServiceImpl.VerifyPayment ac st s sessionID sessionResult now).2 = s ∧
    (PaymentServiceImpl.VerifyPayment ac st s sessionID sessionResult now).1 =
      .ok { order := { order with
                       status := OrderStatusPending
                       pspReference := resp.extractPSPReference }
            resultCode := resp.extractResultCode
            pspReference := resp.extractPSPReference
            status := OrderStatusPending } ∧
    (resp.payments = [] →
      resp.extractResultCode = "" ∧ resp.extractPSPReference = "") := by
  have hmap := mapResultCodeToStatus_unrecognized _ hrc
  obtain ⟨e, hupd⟩ := updateOrderStatus_pending_error st s order.reference
    resp.extractPSPReference now
  rw [← hmap] at hupd
  refine ⟨?_, ?_, ?_⟩
  · simp [PaymentServiceImpl.VerifyPayment, OrderServiceImpl.GetOrderByReference,
      hgw, hget, hupd]
  · simp [PaymentServiceImpl.VerifyPayment, OrderServiceImpl.GetOrderByReference,
      hgw, hget, hupd, hmap]
  · intro hp
    simp [SessionStatusResponse.extractResultCode,
      SessionStatusResponse.extractPSPReference, hp]

/-- C10: when the session lookup and the order fetch succeed, `VerifyPayment`
returns a non-error result; in particular when the stored order is already
`authorized` and the outcome maps to `failed` or `cancelled`, the transition
error from `UpdateOrderStatus` is swallowed, the store is unchanged, and the
returned in-memory order carries the conflicting mapped status and the
extracted PSP reference. -/
theorem verify_swallows_transition_error {σ : Type} (ac : AdyenClient)
    (st : OrderStore σ) (s : σ) (sessionID sessionResult : String) (now : Nat)
    (resp : SessionStatusResponse) (order : Order)
    (hgw : ac.getSessionStatus sessionID sessionResult = .ok resp)
    (hget : st.getOrderByReference s resp.reference = .ok order) :
    (∃ r, (PaymentServiceImpl.VerifyPayment ac st s sessionID sessionResult now).1 =
      .ok r) ∧
    (∀ order2, st.getOrderByReference s order.reference = .ok order2 →
      order2.status = OrderStatusAuthorized →
      (mapResultCodeToStatus resp.extractResultCode = OrderStatusFailed ∨
        mapResultCodeToStatus resp.extractResultCode = OrderStatusCancelled) →
      PaymentServiceImpl.VerifyPayment ac st s sessionID sessionResult now =
        (.ok { order := { order with
                          status := mapResultCodeToStatus resp.extractResultCode
                          pspReference := resp.extractPSPReference }
               resultCode := resp.extractResultCode
               pspReference := resp.extractPSPReference
               status := mapResultCodeToStatus resp.extractResultCode }, s)) := by
  have heval : PaymentServiceImpl.VerifyPayment ac st s sessionID sessionResult now =
      (.ok { order := { order with
                        status := mapResultCodeToStatus resp.extractResultCode
                        pspReference := resp.extractPSPReference }
             resultCode := resp.extractResultCode
             pspReference := resp.extractPSPReference
             status := mapResultCodeToStatus resp.extractResultCode },
        match OrderServiceImpl.UpdateOrderStatus st s order.reference
            (mapResultCodeToStatus resp.extractResultCode)
            resp.extractPSPReference now with
        | .error _ => s
        | .ok s2 => s2) := by
    rcases hupd : OrderServiceImpl.UpdateOrderStatus st s order.reference
        (mapResultCodeToStatus resp.extractResultCode)
        resp.extractPSPReference now with e | s2 <;>
      simp [PaymentServiceImpl.VerifyPayment,
        OrderServiceImpl.GetOrderByReference, hgw, hget, hupd]
  constructor
  · exact ⟨_, by rw [heval]⟩
  · intro order2 hget2 hauth hmapped
    have hupd : OrderServiceImpl.UpdateOrderStatus st s order.reference
        (mapResultCodeToStatus resp.extractResultCode)
        resp.extractPSPReference now =
        .error (.wrap .errInvalidStatusTransition
          (if mapResultCodeToStatus resp.extractResultCode = OrderStatusFailed then
            "cannot fail an authorized order" else "cannot cancel an authorized order")) := by
      unfold OrderServiceImpl.UpdateOrderStatus
      rw [hget2]
      rcases hmapped with hm | hm <;>
        simp [hm, Order.Fail, Order.Cancel, hauth, OrderStatusPending,
          OrderStatusAuthorized, OrderStatusFailed, OrderStatusCancelled]
    rw [heval, hupd]

theorem verify_best_effort_witness :
    refusedClient.getSessionStatus "sess-1" "res" = .ok refusedResp ∧
    inMemoryRepo.getOrderByReference [sampleAuthorized] refusedResp.reference =
      .ok sampleAuthorized ∧
    (∃ e, OrderServiceImpl.UpdateOrderStatus inMemoryRepo [sampleAuthorized]
        sampleAuthorized.reference
        (mapResultCodeToStatus refusedResp.extractResultCode)
        refusedResp.extractPSPReference 5 = .error e) ∧
    PaymentServiceImpl.VerifyPayment refusedClient inMemoryRepo [sampleAuthorized]
        "sess-1" "res" 5 =
      (.ok { order := { sampleAuthorized with
                        status := mapResultCodeToStatus refusedResp.extractResultCode
                        pspReference := refusedResp.extractPSPReference }
             resultCode := refusedResp.extractResultCode
             pspReference := refusedResp.extractPSPReference
             status := mapResultCodeToStatus refusedResp.extractResultCode },
        [sampleAuthorized]) :=
  ⟨rfl, rfl, ⟨.wrap .errInvalidStatusTransition "cannot fail an authorized order", rfl⟩,
    verify_best_effort refusedClient inMemoryRepo [sampleAuthorized] "sess-1" "res" 5
      refusedResp sampleAuthorized
      (.wrap .errInvalidStatusTransition "cannot fail an authorized order")
      rfl rfl rfl⟩

theorem verify_unrecognized_code_noop_witness :
    noAttemptClient.getSessionStatus "sess-2" "res" = .ok noAttemptResp ∧
    inMemoryRepo.getOrderByReference [sampleOrder] noAttemptResp.reference =
      .ok sampleOrder ∧
    noAttemptResp.extractResultCode ∉
      (["Authorised", "Refused", "Error", "Cancelled"] : List String) ∧
    (PaymentServiceImpl.VerifyPayment noAttemptClient inMemoryRepo [sampleOrder]
        "sess-2" "res" 5).2 = [sampleOrder] ∧
    (PaymentServiceImpl.VerifyPayment noAttemptClient inMemoryRepo [sampleOrder]
        "sess-2" "res" 5).1 =
      .ok { order := { sampleOrder with
                       status := OrderStatusPending
                       pspReference := noAttemptResp.extractPSPReference }
            resultCode := noAttemptResp.extractResultCode
            pspReference := noAttemptResp.extractPSPReference
            status := OrderStatusPending } ∧
    (noAttemptResp.payments = [] →
      noAttemptResp.extractResultCode = "" ∧ noAttemptResp.extractPSPReference = "") :=
  ⟨rfl, rfl, by decide,
    verify_unrecognized_code_noop noAttemptClient inMemoryRepo [sampleOrder]
      "sess-2" "res" 5 noAttemptResp sampleOrder rfl rfl (by decide)⟩

theorem checkout_dangling_pending_witness :
    NewOrder "Widget" 100 "USD" "uuid-a" 1 0 = .ok checkoutOrder ∧
    findByReference [] checkoutOrder.reference = none ∧
    refusedClient.createSession (buildSessionRequest sampleConfig checkoutOrder
      "Widget" 100 "USD" "http://r") = .error (.base "gateway down") ∧
    PaymentServiceImpl.CreatePaymentSession refusedClient inMemoryRepo sampleConfig []
        "Widget" 100 "USD" "http://r" "uuid-a" 1 0 =
      (.error (.wrap (.base "gateway down") "failed to create Adyen session"),
        [] ++ [checkoutOrder]) ∧
    findByReference ([] ++ [checkoutOrder]) checkoutOrder.reference =
      some checkoutOrder ∧
    checkoutOrder.status = OrderStatusPending :=
  ⟨rfl, rfl, rfl,
    checkout_dangling_pending refusedClient sampleConfig [] checkoutOrder
      "Widget" 100 "USD" "http://r" "uuid-a" 1 0 (.base "gateway down")
      rfl rfl rfl⟩

theorem verify_swallows_transition_error_witness :
    refusedClient.getSessionStatus "sess-1" "res" = .ok refusedResp ∧
    inMemoryRepo.getOrderByReference [sampleAuthorized] refusedResp.reference =
      .ok sampleAuthorized ∧
    inMemoryRepo.getOrderByReference [sampleAuthorized] sampleAuthorized.reference =
      .ok sampleAuthorized ∧
    sampleAuthorized.status = OrderStatusAuthorized ∧
    mapResultCodeToStatus refusedResp.extractResultCode = OrderStatusFailed ∧
    (∃ r, (PaymentServiceImpl.VerifyPayment refusedClient inMemoryRepo
        [sampleAuthorized] "sess-1" "res" 5).1 = .ok r) ∧
    PaymentServiceImpl.VerifyPayment refusedClient inMemoryRepo [sampleAuthorized]
        "sess-1" "res" 5 =
      (.ok { order := { sampleAuthorized with
                        status := mapResultCodeToStatus refusedResp.extractResultCode
                        pspReference := refusedResp.extractPSPReference }
             resultCode := refusedResp.extractResultCode
             pspReference := refusedResp.extractPSPReference
             status := mapResultCodeToStatus refusedResp.extractResultCode },
        [sampleAuthorized]) := by
  have h := verify_swallows_transition_error refusedClient inMemoryRepo
    [sampleAuthorized] "sess-1" "res" 5 refusedResp sampleAuthorized rfl rfl
  exact ⟨rfl, rfl, rfl, rfl, rfl, h.1, h.2 sampleAuthorized rfl rfl (Or.inl rfl)⟩
